import Mathlib

/-!
Verification of the interview-orchestration core of the Inter-AI backend.

The embedding below follows the Python sources:
- backend/interviews/ai_service.py (AIInterviewer, the OpenAI-backed engine,
  and its MockAIInterviewer fallback),
- backend/interviews/gemini_service.py (GeminiAIInterviewer and the
  MockAIInterviewer actually imported by the views),
- backend/interviews/ai_views.py (AIInterviewView: the orchestrator with its
  module-level active_ai_sessions registry and Conversation persistence).

External effects are made explicit: calls to the two chat-completion
providers go through an Oracle record of functions returning Except, and
database row creation goes through a db function returning Except. In-place
mutation of engine objects becomes explicit state passing; the orchestrator
writes the post-call engine state back into the registry, mirroring the fact
that the Python registry holds a reference to the mutated object.
-/

/-- One entry of a conversation history: a role-tagged message, as the Python
dicts with keys role and content. -/
structure Msg where
  role : String
  content : String
deriving DecidableEq

/-- Shorthand for one role-tagged message dict. -/
def msg (role content : String) : Msg := { role := role, content := content }

/-- Python truthiness of an optional string argument (if student_response:).
None and the empty string are falsy. -/
def strTruthy : Option String → Bool
  | none => false
  | some s => !s.isEmpty

/-- The constant behavioral preamble opening every system prompt
(the triple-quoted literal in _build_system_prompt, identical in
ai_service.py and gemini_service.py). -/
def interviewerPreamble : String :=
  "You are a professional and friendly AI interviewer. Your role is to conduct a structured interview \nwith a student/candidate. You should:\n\n1. Be professional yet warm and encouraging\n2. Ask the provided questions one at a time\n3. Listen carefully to the candidate's responses\n4. Ask relevant follow-up questions when appropriate\n5. Provide smooth transitions between topics\n6. Keep track of which questions have been asked\n7. Manage the interview time effectively\n8. End the interview gracefully when all questions are covered\n\nIMPORTANT RULES:\n- Only ask ONE question at a time\n- Wait for the candidate's response before moving to the next question\n- Be encouraging and create a comfortable environment\n- If the candidate seems confused, rephrase the question\n- Keep your responses concise and professional\n"

/-- _build_system_prompt of AIInterviewer and GeminiAIInterviewer (verbatim
the same function in both files). A context dict is modelled as an
insertion-ordered association list; the Python check if context: is the
non-emptiness test (None becomes the empty list). Question numbering is
1-based via enumerate(questions, 1). -/
def build_system_prompt (questions : List String) (context : List (String × String)) : String :=
  let prompt := interviewerPreamble
  let prompt :=
    if context.isEmpty then prompt
    else context.foldl (fun p kv => p ++ "- " ++ kv.1 ++ ": " ++ kv.2 ++ "\n")
      (prompt ++ "\n\nINTERVIEW CONTEXT:\n")
  (questions.foldl (fun (acc : String × Nat) q =>
      (acc.1 ++ toString acc.2 ++ ". " ++ q ++ "\n", acc.2 + 1))
    (prompt ++ "\n\nQUESTIONS TO ASK (in order):\n", 1)).1

/-- Summary dictionary returned by get_conversation_summary (same formula in
all three interviewer classes). -/
structure Summary where
  total_messages : Nat
  student_messages : Nat
  ai_messages : Nat
  conversation : List Msg
deriving DecidableEq

/-- The body shared by every get_conversation_summary implementation. -/
def summarize (history : List Msg) : Summary :=
  { total_messages := history.length
    student_messages := (history.filter (fun m => m.role == "user")).length
    ai_messages := (history.filter (fun m => m.role == "assistant")).length
    conversation := history }

/-- State of MockAIInterviewer (gemini_service.py lines 195-254; the copy in
ai_service.py is identical). -/
structure MockState where
  questions : List String
  current_question_index : Nat
  conversation_history : List Msg
deriving DecidableEq

/-- MockAIInterviewer.__init__. -/
def MockState.new : MockState :=
  { questions := [], current_question_index := 0, conversation_history := [] }

/-- The fixed greeting returned by MockAIInterviewer.initialize_interview. -/
def mockOpeningMessage : String :=
  "Hello! Welcome to this interview. I'm excited to learn more about you. Let's begin!"

/-- The fixed sentence MockAIInterviewer.get_ai_response returns once every
question has been used. -/
def mockExhaustedMessage : String :=
  "Thank you for your responses! That concludes our interview."

/-- The fixed valediction returned by MockAIInterviewer.end_interview. -/
def mockClosingMessage : String :=
  "Thank you for taking the time to interview with us today. We appreciate your interest and will be in touch soon. Have a great day!"

/-- MockAIInterviewer.initialize_interview: stores the question list, resets
the cursor to 0, appends the fixed greeting to the conversation history
(the history itself is not cleared) and returns the greeting. The context
argument is accepted and ignored, as in the source. -/
def MockState.initialize_interview (s : MockState) (questions : List String)
    (_context : List (String × String)) : MockState × String :=
  let s := { s with questions := questions, current_question_index := 0 }
  let s := { s with conversation_history :=
    s.conversation_history ++ [msg "assistant" mockOpeningMessage] }
  (s, mockOpeningMessage)

/-- MockAIInterviewer.get_ai_response: append the student response to history
when truthy; if an unused question remains return it (recording it in history
and advancing the cursor), otherwise return the fixed exhausted sentence
(which the source does not record in history). -/
def MockState.get_ai_response (s : MockState) (student_response : Option String) :
    MockState × String :=
  let s :=
    if strTruthy student_response then
      { s with conversation_history :=
        s.conversation_history ++ [msg "user" (student_response.getD "")] }
    else s
  if s.current_question_index < s.questions.length then
    let question := s.questions.getD s.current_question_index ""
    let s := { s with current_question_index := s.current_question_index + 1 }
    let s := { s with conversation_history := s.conversation_history ++ [msg "assistant" question] }
    (s, question)
  else
    (s, mockExhaustedMessage)

/-- MockAIInterviewer.end_interview: append and return the fixed closing. -/
def MockState.end_interview (s : MockState) : MockState × String :=
  ({ s with conversation_history :=
      s.conversation_history ++ [msg "assistant" mockClosingMessage] },
    mockClosingMessage)

/-- MockAIInterviewer.get_conversation_summary. -/
def MockState.get_conversation_summary (s : MockState) : Summary :=
  summarize s.conversation_history

/-- The two external chat-completion services, as deterministic functions of
what the code hands them.  The OpenAI client receives the full accumulated
message list; the Gemini chat receives one string per send_message call.
A .error result models the provider call raising. -/
structure Oracle where
  openaiChat : List Msg → Except String String
  geminiSend : String → Except String String

/-- State of AIInterviewer (ai_service.py), the OpenAI-backed engine: only
its conversation_history matters to the logic (api key and client are
connection handles). -/
structure OpenAIState where
  conversation_history : List Msg
deriving DecidableEq

/-- AIInterviewer.__init__ (after a successful construction). -/
def OpenAIState.new : OpenAIState := { conversation_history := [] }

/-- AIInterviewer.get_ai_response: the student response, when truthy, is
appended to history before the provider call, so on a provider failure the
history keeps it; on success the assistant reply is appended and returned.
A raised provider error is re-signalled with the AI service error prefix. -/
def OpenAIState.get_ai_response (oracle : Oracle) (s : OpenAIState)
    (student_response : Option String) : OpenAIState × Except String String :=
  let s :=
    if strTruthy student_response then
      { s with conversation_history :=
        s.conversation_history ++ [msg "user" (student_response.getD "")] }
    else s
  match oracle.openaiChat s.conversation_history with
  | .ok ai_message =>
      ({ s with conversation_history :=
          s.conversation_history ++ [msg "assistant" ai_message] },
        .ok ai_message)
  | .error e => (s, .error ("AI service error: " ++ e))

/-- AIInterviewer.initialize_interview: the history is reset to the single
system message before the greeting exchange. -/
def OpenAIState.initialize_interview (oracle : Oracle) (s : OpenAIState)
    (questions : List String) (context : List (String × String)) :
    OpenAIState × Except String String :=
  let system_prompt := build_system_prompt questions context
  let s := { s with conversation_history := [msg "system" system_prompt] }
  s.get_ai_response oracle (some "Start the interview with a warm greeting.")

/-- AIInterviewer.end_interview: append the wrap-up directive as a user
message, then one more provider turn. -/
def OpenAIState.end_interview (oracle : Oracle) (s : OpenAIState) :
    OpenAIState × Except String String :=
  let wrapUp := "The interview is now complete. Thank the candidate and provide a professional closing statement."
  let s := { s with conversation_history := s.conversation_history ++ [msg "user" wrapUp] }
  s.get_ai_response oracle none

/-- AIInterviewer.get_conversation_summary. -/
def OpenAIState.get_conversation_summary (s : OpenAIState) : Summary :=
  summarize s.conversation_history

/-- State of GeminiAIInterviewer (gemini_service.py): whether a chat session
was started (self.chat), the accumulated history and the stored prompt. -/
structure GeminiState where
  chat_started : Bool
  conversation_history : List Msg
  system_prompt : String
deriving DecidableEq

/-- GeminiAIInterviewer.__init__ (after a successful construction). -/
def GeminiState.new : GeminiState :=
  { chat_started := false, conversation_history := [], system_prompt := "" }

/-- GeminiAIInterviewer._send_message: the system prompt is prepended to the
first message of a chat; on success the raw message and the reply are
appended to history; a provider failure appends nothing and is re-signalled
with the AI service error prefix. -/
def GeminiState.send_message (oracle : Oracle) (s : GeminiState) (message : String) :
    GeminiState × Except String String :=
  let full_message :=
    if s.conversation_history.isEmpty then s.system_prompt ++ "\n\n" ++ message
    else message
  match oracle.geminiSend full_message with
  | .ok ai_message =>
      ({ s with conversation_history := s.conversation_history ++
          [msg "user" message, msg "assistant" ai_message] },
        .ok ai_message)
  | .error e => (s, .error ("AI service error: " ++ e))

/-- GeminiAIInterviewer.initialize_interview: stores the built prompt, starts
a fresh chat, resets the history to empty, then sends the warm-greeting
directive. -/
def GeminiState.initialize_interview (oracle : Oracle) (s : GeminiState)
    (questions : List String) (context : List (String × String)) :
    GeminiState × Except String String :=
  let s := { s with system_prompt := build_system_prompt questions context }
  let s := { s with chat_started := true, conversation_history := [] }
  s.send_message oracle "Start the interview with a warm greeting."

/-- GeminiAIInterviewer.get_ai_response: requires an initialized chat; a
truthy student response is forwarded, a falsy one becomes the next-question
directive. -/
def GeminiState.get_ai_response (oracle : Oracle) (s : GeminiState)
    (student_response : Option String) : GeminiState × Except String String :=
  if !s.chat_started then
    (s, .error "Interview not initialized. Call initialize_interview first.")
  else if strTruthy student_response then
    s.send_message oracle (student_response.getD "")
  else
    s.send_message oracle "Please ask the next question."

/-- GeminiAIInterviewer.end_interview: with no chat, a fixed thanks; else the
wrap-up directive is sent. -/
def GeminiState.end_interview (oracle : Oracle) (s : GeminiState) :
    GeminiState × Except String String :=
  if !s.chat_started then (s, .ok "Thank you for your time.")
  else
    s.send_message oracle
      "The interview is now complete. Thank the candidate and provide a professional closing statement."

/-- GeminiAIInterviewer.get_conversation_summary. -/
def GeminiState.get_conversation_summary (s : GeminiState) : Summary :=
  summarize s.conversation_history

/-- The duck-typed engine sum: one of the three interviewer classes the views
can place into active_ai_sessions. -/
inductive Engine where
  | mock (s : MockState)
  | openai (s : OpenAIState)
  | gemini (s : GeminiState)
deriving DecidableEq

/-- Dispatch of initialize_interview over the three classes. The mock never
fails; provider-backed variants may re-signal a provider error. -/
def Engine.initialize_interview (oracle : Oracle) (e : Engine)
    (questions : List String) (context : List (String × String)) :
    Engine × Except String String :=
  match e with
  | .mock s =>
      let r := s.initialize_interview questions context
      (.mock r.1, .ok r.2)
  | .openai s =>
      let r := s.initialize_interview oracle questions context
      (.openai r.1, r.2)
  | .gemini s =>
      let r := s.initialize_interview oracle questions context
      (.gemini r.1, r.2)

/-- Dispatch of get_ai_response over the three classes. -/
def Engine.get_ai_response (oracle : Oracle) (e : Engine)
    (student_response : Option String) : Engine × Except String String :=
  match e with
  | .mock s =>
      let r := s.get_ai_response student_response
      (.mock r.1, .ok r.2)
  | .openai s =>
      let r := s.get_ai_response oracle student_response
      (.openai r.1, r.2)
  | .gemini s =>
      let r := s.get_ai_response oracle student_response
      (.gemini r.1, r.2)

/-- Dispatch of end_interview over the three classes. -/
def Engine.end_interview (oracle : Oracle) (e : Engine) :
    Engine × Except String String :=
  match e with
  | .mock s =>
      let r := s.end_interview
      (.mock r.1, .ok r.2)
  | .openai s =>
      let r := s.end_interview oracle
      (.openai r.1, r.2)
  | .gemini s =>
      let r := s.end_interview oracle
      (.gemini r.1, r.2)

/-- Dispatch of get_conversation_summary over the three classes. -/
def Engine.get_conversation_summary (e : Engine) : Summary :=
  match e with
  | .mock s => s.get_conversation_summary
  | .openai s => s.get_conversation_summary
  | .gemini s => s.get_conversation_summary

/-- The conversation history held by an engine, for stating invariants. -/
def Engine.history : Engine → List Msg
  | .mock s => s.conversation_history
  | .openai s => s.conversation_history
  | .gemini s => s.conversation_history

/-- Number of system-role entries in an engine's history. -/
def Engine.sysCount (e : Engine) : Nat :=
  (e.history.filter (fun m => m.role == "system")).length

/-- One row of the Conversation table: session key, speaker (the source uses
the strings ai and student), message text and the optional question link. -/
structure ConvRow where
  session : String
  speaker : String
  message : String
  question : Option String
deriving DecidableEq

/-- The registry active_ai_sessions as an insertion-ordered association list
with Python-dict semantics (lookup by key; assignment replaces in place;
del removes the entry). -/
def dictGet (d : List (String × Engine)) (k : String) : Option Engine :=
  match d with
  | [] => none
  | (k', v) :: rest => if k' = k then some v else dictGet rest k

/-- Python dict assignment d[k] = v: replace in place when present, else
append at the end. -/
def dictPut (d : List (String × Engine)) (k : String) (v : Engine) :
    List (String × Engine) :=
  match d with
  | [] => [(k, v)]
  | (k', v') :: rest => if k' = k then (k, v) :: rest else (k', v') :: dictPut rest k v

/-- Python del d[k]: drop the (first) entry with this key. -/
def dictDel (d : List (String × Engine)) (k : String) : List (String × Engine) :=
  match d with
  | [] => []
  | (k', v') :: rest => if k' = k then rest else (k', v') :: dictDel rest k

/-- Number of registry entries stored under a key. -/
def dictCountKey (d : List (String × Engine)) (k : String) : Nat :=
  (d.filter (fun p => p.1 == k)).length

/-- Observable state of the orchestration layer: the active_ai_sessions
registry plus the persisted Conversation rows (in creation order). -/
structure OrchState where
  registry : List (String × Engine)
  transcript : List ConvRow
deriving DecidableEq

/-- The state before any request: empty registry, no rows. -/
def OrchState.empty : OrchState := { registry := [], transcript := [] }

/-- Everything the views read from the outside world: the two provider
oracles, database row creation (a .error models Conversation.objects.create
raising, in which case no row is stored), and the engine-selection
environment: whether each API key is configured and whether each provider
constructor succeeds. -/
structure Env where
  oracle : Oracle
  db : ConvRow → Except String Unit
  geminiKey : Bool
  openaiKey : Bool
  geminiCtorOk : Bool
  openaiCtorOk : Bool

/-- The result of one request, reduced to what the views return: a success
payload per action or an HTTP status with an error message. -/
inductive ApiResponse where
  | initOk (opening_message : String) (first_question : String)
  | respondOk (ai_response : String)
  | endOk (closing_message : String) (summary : Summary)
  | err (status : Nat) (error : String)
deriving DecidableEq

/-- The engine-selection ladder of _initialize_interview: Gemini when its key
is set and its constructor succeeds, else OpenAI under the same conditions,
else the mock (whose constructor cannot fail). -/
def selectEngine (env : Env) : Engine :=
  if env.geminiKey && env.geminiCtorOk then .gemini GeminiState.new
  else if env.openaiKey && env.openaiCtorOk then .openai OpenAIState.new
  else .mock MockState.new

/-- AIInterviewView._initialize_interview for a session with the given
questions and context: reject an empty question list (400); select and
initialize an engine (a provider failure here is the catch-all 500 with
nothing persisted); register the engine; persist the opening row; bootstrap
the first question with a respond call (writing the mutated engine back, as
the registry aliases the Python object); persist the first-question row
linked to the first question. Each later failure keeps all effects already
performed, as in the source. -/
def initializeInterview (env : Env) (st : OrchState) (sid : String)
    (questions : List String) (context : List (String × String)) :
    OrchState × ApiResponse :=
  if questions.isEmpty then
    (st, .err 400 "No questions found for this session")
  else
    match (selectEngine env).initialize_interview env.oracle questions context with
    | (_, .error msg) => (st, .err 500 ("Failed to initialize interview: " ++ msg))
    | (e1, .ok opening_message) =>
      let st := { st with registry := dictPut st.registry sid e1 }
      let openingRow : ConvRow :=
        { session := sid, speaker := "ai", message := opening_message, question := none }
      match env.db openingRow with
      | .error msg => (st, .err 500 ("Failed to initialize interview: " ++ msg))
      | .ok _ =>
        let st := { st with transcript := st.transcript ++ [openingRow] }
        match e1.get_ai_response env.oracle (some "Please ask the first question.") with
        | (e2, .error msg) =>
            ({ st with registry := dictPut st.registry sid e2 },
              .err 500 ("Failed to initialize interview: " ++ msg))
        | (e2, .ok first_question) =>
          let st := { st with registry := dictPut st.registry sid e2 }
          let questionRow : ConvRow :=
            { session := sid, speaker := "ai", message := first_question,
              question := questions.head? }
          match env.db questionRow with
          | .error msg => (st, .err 500 ("Failed to initialize interview: " ++ msg))
          | .ok _ =>
            ({ st with transcript := st.transcript ++ [questionRow] },
              .initOk opening_message first_question)

/-- AIInterviewView._get_ai_response: reject a falsy student_response (400);
reject a session with no live engine (400, nothing persisted); persist the
student row; run the engine (writing its state back even on failure); persist
the interviewer row. -/
def getAiResponse (env : Env) (st : OrchState) (sid : String)
    (student_response : Option String) : OrchState × ApiResponse :=
  if !strTruthy student_response then
    (st, .err 400 "student_response is required")
  else
    match dictGet st.registry sid with
    | none => (st, .err 400 "AI session not found. Please initialize the interview first.")
    | some e =>
      let sr := student_response.getD ""
      let studentRow : ConvRow :=
        { session := sid, speaker := "student", message := sr, question := none }
      match env.db studentRow with
      | .error msg => (st, .err 500 ("Failed to get AI response: " ++ msg))
      | .ok _ =>
        let st := { st with transcript := st.transcript ++ [studentRow] }
        match e.get_ai_response env.oracle (some sr) with
        | (e', .error msg) =>
            ({ st with registry := dictPut st.registry sid e' },
              .err 500 ("Failed to get AI response: " ++ msg))
        | (e', .ok ai_response) =>
          let st := { st with registry := dictPut st.registry sid e' }
          let aiRow : ConvRow :=
            { session := sid, speaker := "ai", message := ai_response, question := none }
          match env.db aiRow with
          | .error msg => (st, .err 500 ("Failed to get AI response: " ++ msg))
          | .ok _ =>
            ({ st with transcript := st.transcript ++ [aiRow] }, .respondOk ai_response)

/-- AIInterviewView._end_interview: reject a session with no live engine
(400); run engine.end_interview (writing its state back even on failure);
persist the closing row; capture the summary; only then evict the engine. -/
def endInterview (env : Env) (st : OrchState) (sid : String) :
    OrchState × ApiResponse :=
  match dictGet st.registry sid with
  | none => (st, .err 400 "AI session not found")
  | some e =>
    match e.end_interview env.oracle with
    | (e', .error msg) =>
        ({ st with registry := dictPut st.registry sid e' },
          .err 500 ("Failed to end interview: " ++ msg))
    | (e', .ok closing_message) =>
      let st := { st with registry := dictPut st.registry sid e' }
      let closingRow : ConvRow :=
        { session := sid, speaker := "ai", message := closing_message, question := none }
      match env.db closingRow with
      | .error msg => (st, .err 500 ("Failed to end interview: " ++ msg))
      | .ok _ =>
        let st := { st with transcript := st.transcript ++ [closingRow] }
        let summary := e'.get_conversation_summary
        ({ st with registry := dictDel st.registry sid }, .endOk closing_message summary)

/-- One request against the action endpoint, restricted to a known session. -/
inductive Req where
  | init (sid : String) (questions : List String) (context : List (String × String))
  | respond (sid : String) (student_response : Option String)
  | finish (sid : String)

/-- Dispatch of one action, as AIInterviewView.post does on the action
field. -/
def runAction (env : Env) (st : OrchState) : Req → OrchState × ApiResponse
  | .init sid qs ctx => initializeInterview env st sid qs ctx
  | .respond sid sr => getAiResponse env st sid sr
  | .finish sid => endInterview env st sid

/-- The state after a sequence of requests. -/
def runActions (env : Env) (st : OrchState) : List Req → OrchState
  | [] => st
  | a :: rest => runActions env (runAction env st a).1 rest

/-- The engine stored in the registry right after a successful initialize:
the selected fresh engine, initialized, after the bootstrap first-question
respond call. -/
def initializedEngine (env : Env) (questions : List String)
    (context : List (String × String)) : Engine :=
  (((selectEngine env).initialize_interview env.oracle questions context).1.get_ai_response
    env.oracle (some "Please ask the first question.")).1

/-! ### The scripted engine's respond stream -/

/-- State of the mock engine after k successive get_ai_response calls with
the given per-call student responses. -/
def mockRespondIter (inputs : Nat → Option String) (s : MockState) : Nat → MockState
  | 0 => s
  | k + 1 => ((mockRespondIter inputs s k).get_ai_response (inputs k)).1

/-- The text returned by the (k+1)-st get_ai_response call. -/
def mockRespondOut (inputs : Nat → Option String) (s : MockState) (k : Nat) : String :=
  ((mockRespondIter inputs s k).get_ai_response (inputs k)).2

theorem mock_respond_questions (s : MockState) (inp : Option String) :
    ((s.get_ai_response inp).1).questions = s.questions := by
  simp only [MockState.get_ai_response]
  split <;> split <;> rfl

theorem mock_respond_index (s : MockState) (inp : Option String) :
    ((s.get_ai_response inp).1).current_question_index =
      if s.current_question_index < s.questions.length
      then s.current_question_index + 1 else s.current_question_index := by
  simp only [MockState.get_ai_response]
  split <;> split <;> simp_all

theorem mock_respond_out (s : MockState) (inp : Option String) :
    (s.get_ai_response inp).2 =
      if s.current_question_index < s.questions.length
      then s.questions.getD s.current_question_index "" else mockExhaustedMessage := by
  simp only [MockState.get_ai_response]
  split <;> split <;> simp_all

@[simp] theorem mock_init_questions (s : MockState) (qs : List String)
    (ctx : List (String × String)) : ((s.initialize_interview qs ctx).1).questions = qs := rfl

@[simp] theorem mock_init_index (s : MockState) (qs : List String)
    (ctx : List (String × String)) :
    ((s.initialize_interview qs ctx).1).current_question_index = 0 := rfl

@[simp] theorem mock_init_history (s : MockState) (qs : List String)
    (ctx : List (String × String)) :
    ((s.initialize_interview qs ctx).1).conversation_history
      = s.conversation_history ++ [msg "assistant" mockOpeningMessage] := rfl

@[simp] theorem mock_init_out (s : MockState) (qs : List String)
    (ctx : List (String × String)) :
    (s.initialize_interview qs ctx).2 = mockOpeningMessage := rfl

theorem mockRespondIter_questions (inputs : Nat → Option String) (s : MockState) (k : Nat) :
    (mockRespondIter inputs s k).questions = s.questions := by
  induction k with
  | zero => rfl
  | succ k ih => simp [mockRespondIter, mock_respond_questions, ih]

theorem mockRespondIter_index (inputs : Nat → Option String) (qs : List String)
    (ctx : List (String × String)) (k : Nat) :
    (mockRespondIter inputs ((MockState.new.initialize_interview qs ctx).1) k).current_question_index
      = min k qs.length := by
  induction k with
  | zero => simp [mockRespondIter]
  | succ k ih =>
      simp only [mockRespondIter, mock_respond_index, mockRespondIter_questions, ih,
        mock_init_questions]
      split <;> omega

/-- C1: for the scripted engine freshly initialized with a question list,
the (k+1)-st respond call returns the k-th question (0-based) while
questions remain, and the fixed exhausted sentence on every call after the
list is used up, whatever the student responses are. -/
theorem C1_scripted_respond_stream (qs : List String) (ctx : List (String × String))
    (inputs : Nat → Option String) (k : Nat) :
    mockRespondOut inputs ((MockState.new.initialize_interview qs ctx).1) k =
      if k < qs.length then qs.getD k "" else mockExhaustedMessage := by
  unfold mockRespondOut
  rw [mock_respond_out, mockRespondIter_questions, mockRespondIter_index, mock_init_questions]
  by_cases h : k < qs.length
  · have hm : min k qs.length = k := Nat.min_eq_left h.le
    simp [hm, h]
  · have hm : min k qs.length = qs.length := Nat.min_eq_right (Nat.le_of_not_lt h)
    simp [hm, h]

/-! ### Dictionary lemmas for the session registry -/

theorem dictGet_dictPut_self (d : List (String × Engine)) (k : String) (v : Engine) :
    dictGet (dictPut d k v) k = some v := by
  induction d with
  | nil => simp [dictPut, dictGet]
  | cons p rest ih =>
      obtain ⟨k', v'⟩ := p
      by_cases h : k' = k
      · simp [dictPut, h, dictGet]
      · simp [dictPut, h, dictGet, ih]

theorem dictGet_eq_none_of_not_mem (d : List (String × Engine)) (k : String)
    (h : k ∉ d.map Prod.fst) : dictGet d k = none := by
  induction d with
  | nil => rfl
  | cons p rest ih =>
      obtain ⟨k', v'⟩ := p
      simp only [List.map_cons, List.mem_cons] at h
      push_neg at h
      simp [dictGet, h.1, ih h.2, Ne.symm h.1]

theorem dictGet_mem_keys (d : List (String × Engine)) (k : String) (v : Engine)
    (h : dictGet d k = some v) : k ∈ d.map Prod.fst := by
  induction d with
  | nil => simp [dictGet] at h
  | cons p rest ih =>
      obtain ⟨k', v'⟩ := p
      by_cases hk : k' = k
      · simp [hk]
      · simp only [dictGet, if_neg hk] at h
        simp [ih h]

theorem dictGet_mem (d : List (String × Engine)) (k : String) (v : Engine)
    (h : dictGet d k = some v) : (k, v) ∈ d := by
  induction d with
  | nil => simp [dictGet] at h
  | cons p rest ih =>
      obtain ⟨k', v'⟩ := p
      by_cases hk : k' = k
      · simp only [dictGet, if_pos hk, Option.some.injEq] at h
        simp [hk, h]
      · simp only [dictGet, if_neg hk] at h
        simp [ih h]

theorem mem_dictPut (d : List (String × Engine)) (k : String) (v : Engine)
    (kv : String × Engine) (h : kv ∈ dictPut d k v) : kv ∈ d ∨ kv = (k, v) := by
  induction d with
  | nil => simp [dictPut] at h; simp [h]
  | cons p rest ih =>
      obtain ⟨k', v'⟩ := p
      by_cases hk : k' = k
      · simp only [dictPut, if_pos hk, List.mem_cons] at h
        rcases h with h | h
        · simp [h]
        · simp [h]
      · simp only [dictPut, if_neg hk, List.mem_cons] at h
        rcases h with h | h
        · simp [h]
        · rcases ih h with h' | h'
          · simp [h']
          · simp [h']

theorem mem_dictDel (d : List (String × Engine)) (k : String)
    (kv : String × Engine) (h : kv ∈ dictDel d k) : kv ∈ d := by
  induction d with
  | nil => simp [dictDel] at h
  | cons p rest ih =>
      obtain ⟨k', v'⟩ := p
      by_cases hk : k' = k
      · simp only [dictDel, if_pos hk] at h
        simp [h]
      · simp only [dictDel, if_neg hk, List.mem_cons] at h
        rcases h with h | h
        · simp [h]
        · simp [ih h]

theorem mem_keys_dictPut (d : List (String × Engine)) (k : String) (v : Engine)
    (a : String) (h : a ∈ (dictPut d k v).map Prod.fst) : a ∈ d.map Prod.fst ∨ a = k := by
  simp only [List.mem_map] at h
  obtain ⟨kv, hkv, hfst⟩ := h
  rcases mem_dictPut d k v kv hkv with h' | h'
  · exact Or.inl (hfst ▸ List.mem_map_of_mem Prod.fst h')
  · right
    rw [← hfst, h']

theorem dictPut_keys_nodup (d : List (String × Engine)) (k : String) (v : Engine)
    (h : (d.map Prod.fst).Nodup) : ((dictPut d k v).map Prod.fst).Nodup := by
  induction d with
  | nil => simp [dictPut]
  | cons p rest ih =>
      obtain ⟨k', v'⟩ := p
      simp only [List.map_cons, List.nodup_cons] at h
      by_cases hk : k' = k
      · simpa [dictPut, hk, List.nodup_cons, hk ▸ h.1] using h.2
      · simp only [dictPut, if_neg hk, List.map_cons, List.nodup_cons]
        refine ⟨fun hmem => ?_, ih h.2⟩
        rcases mem_keys_dictPut rest k v k' hmem with h' | h'
        · exact h.1 h'
        · exact hk h'

theorem dictDel_keys_nodup (d : List (String × Engine)) (k : String)
    (h : (d.map Prod.fst).Nodup) : ((dictDel d k).map Prod.fst).Nodup := by
  induction d with
  | nil => simp [dictDel]
  | cons p rest ih =>
      obtain ⟨k', v'⟩ := p
      simp only [List.map_cons, List.nodup_cons] at h
      by_cases hk : k' = k
      · simp [dictDel, hk, h.2]
      · simp only [dictDel, if_neg hk, List.map_cons, List.nodup_cons]
        refine ⟨fun hmem => ?_, ih h.2⟩
        simp only [List.mem_map] at hmem
        obtain ⟨kv, hkv, hfst⟩ := hmem
        exact h.1 (hfst ▸ List.mem_map_of_mem Prod.fst (mem_dictDel rest k kv hkv))

theorem dictGet_dictDel_self (d : List (String × Engine)) (k : String)
    (h : (d.map Prod.fst).Nodup) : dictGet (dictDel d k) k = none := by
  induction d with
  | nil => rfl
  | cons p rest ih =>
      obtain ⟨k', v'⟩ := p
      simp only [List.map_cons, List.nodup_cons] at h
      by_cases hk : k' = k
      · simp only [dictDel, if_pos hk]
        exact dictGet_eq_none_of_not_mem rest k (hk ▸ h.1)
      · simp [dictGet, dictDel, hk, ih h.2]

theorem dictCountKey_eq_zero_of_not_mem (d : List (String × Engine)) (k : String)
    (h : k ∉ d.map Prod.fst) : dictCountKey d k = 0 := by
  induction d with
  | nil => rfl
  | cons p rest ih =>
      obtain ⟨k', v'⟩ := p
      simp only [List.map_cons, List.mem_cons] at h
      push_neg at h
      simp [dictCountKey, List.filter_cons, h.1, Ne.symm h.1]
      have := ih h.2
      simpa [dictCountKey] using this

theorem dictCountKey_le_one (d : List (String × Engine)) (k : String)
    (h : (d.map Prod.fst).Nodup) : dictCountKey d k ≤ 1 := by
  induction d with
  | nil => simp [dictCountKey]
  | cons p rest ih =>
      obtain ⟨k', v'⟩ := p
      simp only [List.map_cons, List.nodup_cons] at h
      by_cases hk : k' = k
      · have hz : dictCountKey rest k = 0 :=
          dictCountKey_eq_zero_of_not_mem rest k (hk ▸ h.1)
        simp only [dictCountKey, List.filter_cons] at hz ⊢
        simp [hk, hz]
      · have := ih h.2
        simp only [dictCountKey, List.filter_cons] at this ⊢
        simpa [hk] using this

theorem dictCountKey_pos (d : List (String × Engine)) (k : String)
    (h : k ∈ d.map Prod.fst) : 1 ≤ dictCountKey d k := by
  induction d with
  | nil => simp at h
  | cons p rest ih =>
      obtain ⟨k', v'⟩ := p
      simp only [List.map_cons, List.mem_cons] at h
      by_cases hk : k' = k
      · simp [dictCountKey, List.filter_cons, hk]
      · rcases h with h | h
        · exact absurd h.symm hk
        · have := ih h
          simp only [dictCountKey, List.filter_cons] at this ⊢
          simpa [hk] using this

/-! ### Orchestrator respond and end -/

instance : DecidableEq (Except String String) := fun a b =>
  match a, b with
  | .ok x, .ok y =>
      if h : x = y then .isTrue (by rw [h]) else .isFalse (by simp [h])
  | .ok _, .error _ => .isFalse (by simp)
  | .error _, .ok _ => .isFalse (by simp)
  | .error x, .error y =>
      if h : x = y then .isTrue (by rw [h]) else .isFalse (by simp [h])

theorem strTruthy_some_of_ne (sr : String) (h : sr ≠ "") : strTruthy (some sr) = true := by
  have hem : sr.isEmpty = false := by
    cases hem : sr.isEmpty
    · rfl
    · exact absurd ((String.isEmpty_iff sr).mp hem) h
  simp [strTruthy, hem]

/-- C4: a respond call for a session with no live engine in the registry is
rejected with the 400 engine-not-found error and changes nothing: the state
(hence the transcript) is returned untouched. -/
theorem C4_respond_without_engine (env : Env) (st : OrchState) (sid : String) (sr : String)
    (hsr : sr ≠ "") (hget : dictGet st.registry sid = none) :
    getAiResponse env st sid (some sr) =
      (st, .err 400 "AI session not found. Please initialize the interview first.") := by
  simp [getAiResponse, strTruthy_some_of_ne sr hsr, hget]

/-- Witness for C4 at the empty state. -/
theorem C4_respond_without_engine_witness :
    ("hi" : String) ≠ "" ∧ dictGet OrchState.empty.registry "S" = none ∧
    getAiResponse
        { oracle := { openaiChat := fun _ => .ok "ok", geminiSend := fun _ => .ok "ok" },
          db := fun _ => .ok (), geminiKey := false, openaiKey := false,
          geminiCtorOk := false, openaiCtorOk := false }
        OrchState.empty "S" (some "hi") =
      (OrchState.empty, .err 400 "AI session not found. Please initialize the interview first.") :=
  ⟨by decide, rfl,
    C4_respond_without_engine _ OrchState.empty "S" "hi" (by decide) rfl⟩

/-- C3: in a respond call the student row is created before the engine is
invoked; when the engine call fails, the final transcript still ends with
exactly the student's entry and the caller gets the 500 error. -/
theorem C3_student_row_persisted_first (env : Env) (st : OrchState) (sid sr : String)
    (e e' : Engine) (emsg : String)
    (hsr : sr ≠ "")
    (hget : dictGet st.registry sid = some e)
    (hdb : env.db { session := sid, speaker := "student", message := sr, question := none } = .ok ())
    (hfail : e.get_ai_response env.oracle (some sr) = (e', .error emsg)) :
    (getAiResponse env st sid (some sr)).1.transcript =
      st.transcript ++ [{ session := sid, speaker := "student", message := sr, question := none }]
    ∧ (getAiResponse env st sid (some sr)).2 = .err 500 ("Failed to get AI response: " ++ emsg) := by
  simp [getAiResponse, strTruthy_some_of_ne sr hsr, hget, hdb, hfail]

/-- A state and environment exhibiting C3: one OpenAI engine whose provider
call fails. -/
def c3Env : Env :=
  { oracle := { openaiChat := fun _ => .error "boom", geminiSend := fun _ => .error "boom" },
    db := fun _ => .ok (), geminiKey := false, openaiKey := true,
    geminiCtorOk := true, openaiCtorOk := true }

def c3St : OrchState :=
  { registry := [("S", .openai { conversation_history := [] })], transcript := [] }

/-- Witness for C3: with a failing provider, the respond call still persists
the student row. -/
theorem C3_student_row_persisted_first_witness :
    ("hi" : String) ≠ "" ∧
    dictGet c3St.registry "S" = some (Engine.openai { conversation_history := [] }) ∧
    c3Env.db { session := "S", speaker := "student", message := "hi", question := none } = .ok () ∧
    (Engine.openai { conversation_history := [] }).get_ai_response c3Env.oracle (some "hi")
      = (Engine.openai { conversation_history := [msg "user" "hi"] },
          .error "AI service error: boom") ∧
    (getAiResponse c3Env c3St "S" (some "hi")).1.transcript =
      c3St.transcript ++ [{ session := "S", speaker := "student", message := "hi", question := none }] :=
  ⟨by decide, rfl, rfl, by decide,
    (C3_student_row_persisted_first c3Env c3St "S" "hi"
      (Engine.openai { conversation_history := [] })
      (Engine.openai { conversation_history := [msg "user" "hi"] })
      "AI service error: boom" (by decide) rfl rfl (by decide)).1⟩

/-- C10: when the end operation fails partway, either in the engine's end
call or in persisting the closing row, the engine is not evicted: it is
still registered (with its post-call state) and the transcript is unchanged,
so a later respond or end still finds the engine. -/
theorem C10_end_failure_not_evicted (env : Env) (st : OrchState) (sid : String) (e : Engine)
    (hget : dictGet st.registry sid = some e) :
    (∀ e' emsg, e.end_interview env.oracle = (e', .error emsg) →
      dictGet (endInterview env st sid).1.registry sid = some e'
      ∧ (endInterview env st sid).1.transcript = st.transcript
      ∧ (endInterview env st sid).2 = .err 500 ("Failed to end interview: " ++ emsg))
    ∧ (∀ e' c dmsg, e.end_interview env.oracle = (e', .ok c) →
      env.db { session := sid, speaker := "ai", message := c, question := none } = .error dmsg →
      dictGet (endInterview env st sid).1.registry sid = some e'
      ∧ (endInterview env st sid).1.transcript = st.transcript
      ∧ (endInterview env st sid).2 = .err 500 ("Failed to end interview: " ++ dmsg)) := by
  constructor
  · intro e' emsg hfail
    simp [endInterview, hget, hfail, dictGet_dictPut_self]
  · intro e' c dmsg hok hdb
    simp [endInterview, hget, hok, hdb, dictGet_dictPut_self]

/-- The OpenAI engine state after a failed wrap-up call: the closing
directive was appended, nothing else. -/
def c10EndedOpenAI : OpenAIState :=
  { conversation_history :=
      [msg "user" "The interview is now complete. Thank the candidate and provide a professional closing statement."] }

/-- Witness for C10: an OpenAI engine whose wrap-up provider call fails stays
registered after the failed end call. -/
theorem C10_end_failure_not_evicted_witness :
    dictGet c3St.registry "S" = some (Engine.openai { conversation_history := [] }) ∧
    (Engine.openai { conversation_history := [] }).end_interview c3Env.oracle
      = (Engine.openai c10EndedOpenAI, .error "AI service error: boom") ∧
    dictGet (endInterview c3Env c3St "S").1.registry "S" = some (Engine.openai c10EndedOpenAI) :=
  ⟨rfl, by decide,
    ((C10_end_failure_not_evicted c3Env c3St "S"
        (Engine.openai { conversation_history := [] }) rfl).1
      (Engine.openai c10EndedOpenAI) "AI service error: boom" (by decide)).1⟩

/-- C7: a successful end call returns the engine's closing message together
with its summary, appends exactly one interviewer row with the closing
message, evicts the engine, and a subsequent respond for the session fails
with the 400 engine-not-found error. -/
theorem C7_end_success (env : Env) (st : OrchState) (sid : String) (e e' : Engine) (c : String)
    (hnodup : (st.registry.map Prod.fst).Nodup)
    (hget : dictGet st.registry sid = some e)
    (hend : e.end_interview env.oracle = (e', .ok c))
    (hdb : env.db { session := sid, speaker := "ai", message := c, question := none } = .ok ()) :
    (endInterview env st sid).2 = .endOk c e'.get_conversation_summary
    ∧ (endInterview env st sid).1.transcript =
        st.transcript ++ [{ session := sid, speaker := "ai", message := c, question := none }]
    ∧ dictGet (endInterview env st sid).1.registry sid = none
    ∧ (∀ sr : String, sr ≠ "" →
        getAiResponse env (endInterview env st sid).1 sid (some sr) =
          ((endInterview env st sid).1,
            .err 400 "AI session not found. Please initialize the interview first.")) := by
  have hreg : (endInterview env st sid).1.registry = dictDel (dictPut st.registry sid e') sid := by
    simp [endInterview, hget, hend, hdb]
  have hnone : dictGet (endInterview env st sid).1.registry sid = none := by
    rw [hreg]
    exact dictGet_dictDel_self _ _ (dictPut_keys_nodup _ _ _ hnodup)
  refine ⟨?_, ?_, hnone, ?_⟩
  · simp [endInterview, hget, hend, hdb]
  · simp [endInterview, hget, hend, hdb]
  · intro sr hsr
    simp [getAiResponse, strTruthy_some_of_ne sr hsr, hnone]

/-- A one-mock-engine state for the C7 witness. -/
def c7St : OrchState :=
  { registry := [("S", .mock MockState.new)], transcript := [] }

def c7Env : Env :=
  { oracle := { openaiChat := fun _ => .ok "ok", geminiSend := fun _ => .ok "ok" },
    db := fun _ => .ok (), geminiKey := false, openaiKey := false,
    geminiCtorOk := false, openaiCtorOk := false }

/-- The mock state after its end_interview call, for the C7 witness. -/
def c7EndedMock : MockState :=
  { questions := [], current_question_index := 0,
    conversation_history := [msg "assistant" mockClosingMessage] }

/-- Witness for C7 on a mock engine. -/
theorem C7_end_success_witness :
    (c7St.registry.map Prod.fst).Nodup ∧
    dictGet c7St.registry "S" = some (Engine.mock MockState.new) ∧
    (Engine.mock MockState.new).end_interview c7Env.oracle
      = (Engine.mock c7EndedMock, .ok mockClosingMessage) ∧
    (endInterview c7Env c7St "S").2
      = .endOk mockClosingMessage (Engine.mock c7EndedMock).get_conversation_summary ∧
    dictGet (endInterview c7Env c7St "S").1.registry "S" = none :=
  ⟨by decide, rfl, by decide,
    (C7_end_success c7Env c7St "S" (Engine.mock MockState.new)
      (Engine.mock c7EndedMock) mockClosingMessage (by decide) rfl (by decide) rfl).1,
    (C7_end_success c7Env c7St "S" (Engine.mock MockState.new)
      (Engine.mock c7EndedMock) mockClosingMessage (by decide) rfl (by decide) rfl).2.2.1⟩

/-! ### Engine selection fallback -/

/-- C5: when both provider-backed constructions are unavailable or fail,
initialize still succeeds on the scripted engine and returns its fixed
greeting as the opening message (with the first question bootstrapped);
and a failure of one provider only moves selection to the next candidate in
the order Gemini, OpenAI, scripted. -/
theorem C5_engine_selection_fallback (env : Env) (st : OrchState) (sid : String)
    (qs : List String) (ctx : List (String × String)) (hq : qs ≠ []) :
    ((env.geminiKey && env.geminiCtorOk) = false →
      (env.openaiKey && env.openaiCtorOk) = false →
      (∀ row, env.db row = Except.ok ()) →
      (initializeInterview env st sid qs ctx).2
        = .initOk mockOpeningMessage (qs.getD 0 ""))
    ∧ ((env.geminiKey && env.geminiCtorOk) = false →
        (env.openaiKey && env.openaiCtorOk) = true →
        selectEngine env = .openai OpenAIState.new)
    ∧ ((env.geminiKey && env.geminiCtorOk) = true →
        selectEngine env = .gemini GeminiState.new) := by
  have hqe : qs.isEmpty = false := by
    cases qs with
    | nil => exact absurd rfl hq
    | cons a l => rfl
  have hql : 0 < qs.length := List.length_pos.mpr hq
  refine ⟨?_, ?_, ?_⟩
  · intro hga hoa hdb
    have hmock : selectEngine env = .mock MockState.new := by
      simp [selectEngine, hga, hoa]
    have hpe : ("Please ask the first question." : String).isEmpty = false := rfl
    simp only [initializeInterview, hqe, Bool.false_eq_true, if_false, hmock,
      Engine.initialize_interview, MockState.initialize_interview,
      Engine.get_ai_response, MockState.get_ai_response, hdb]
    simp [strTruthy, hpe, hql, MockState.new, List.getD]
  · intro hga hoa
    simp [selectEngine, hga, hoa]
  · intro hga
    simp [selectEngine, hga]

/-- Witness for C5: no key configured, two questions. -/
theorem C5_engine_selection_fallback_witness :
    (["Q1", "Q2"] : List String) ≠ [] ∧
    (initializeInterview c7Env OrchState.empty "S" ["Q1", "Q2"] [("title", "t")]).2
      = .initOk mockOpeningMessage "Q1" :=
  ⟨by decide,
    (C5_engine_selection_fallback c7Env OrchState.empty "S" ["Q1", "Q2"] [("title", "t")]
      (by decide)).1 rfl rfl (fun _ => rfl)⟩

/-! ### What initialize does to engine histories -/

/-- C6 as stated is refuted by the scripted engine: initialize_interview
does not clear a pre-existing conversation history; the old entry survives
in front of the newly appended greeting. -/
theorem C6_counterexample :
    ((MockState.mk [] 0 [msg "user" "old"]).initialize_interview ["Q1"] []).1.conversation_history
      = [msg "user" "old", msg "assistant" mockOpeningMessage] ∧
    ((MockState.mk [] 0 [msg "user" "old"]).initialize_interview ["Q1"] []).1.conversation_history
      ≠ [msg "assistant" mockOpeningMessage] := by
  refine ⟨rfl, ?_⟩
  decide

/-- C6 amended: the provider-backed variants do reset their internal
conversation state on initialize - the result is the same as initializing a
freshly constructed engine, whatever state they were in - while the scripted
variant resets only the question list and cursor and appends its greeting to
whatever history is already present. -/
theorem C6_amended_initialize_reset (oracle : Oracle) (s1 : OpenAIState) (s2 : GeminiState)
    (m : MockState) (qs : List String) (ctx : List (String × String)) :
    s1.initialize_interview oracle qs ctx = OpenAIState.new.initialize_interview oracle qs ctx
    ∧ s2.initialize_interview oracle qs ctx = GeminiState.new.initialize_interview oracle qs ctx
    ∧ (m.initialize_interview qs ctx).1.questions = qs
    ∧ (m.initialize_interview qs ctx).1.current_question_index = 0
    ∧ (m.initialize_interview qs ctx).1.conversation_history
        = m.conversation_history ++ [msg "assistant" mockOpeningMessage] := by
  refine ⟨?_, ?_, rfl, rfl, rfl⟩
  · cases s1
    rfl
  · cases s2
    rfl

/-! ### The prompt builder's structure -/

/-- Concatenation of a list of lines, for stating the prompt layout. -/
def linesConcat : List String → String
  | [] => ""
  | l :: rest => l ++ linesConcat rest

/-- The context block as the spec describes it: header, then one line per
key/value pair in insertion order. -/
def contextBlockSpec (context : List (String × String)) : String :=
  "\n\nINTERVIEW CONTEXT:\n"
    ++ linesConcat (context.map (fun kv => "- " ++ kv.1 ++ ": " ++ kv.2 ++ "\n"))

/-- The 1-based numbered question lines, in their given order. -/
def numberedLines (n : Nat) : List String → List String
  | [] => []
  | q :: rest => (toString n ++ ". " ++ q ++ "\n") :: numberedLines (n + 1) rest

/-- The questions block as the spec describes it: header, then the numbered
list starting at 1. -/
def questionsBlockSpec (questions : List String) : String :=
  "\n\nQUESTIONS TO ASK (in order):\n" ++ linesConcat (numberedLines 1 questions)

theorem ctx_foldl_eq (context : List (String × String)) (p : String) :
    context.foldl (fun p kv => p ++ "- " ++ kv.1 ++ ": " ++ kv.2 ++ "\n") p
      = p ++ linesConcat (context.map (fun kv => "- " ++ kv.1 ++ ": " ++ kv.2 ++ "\n")) := by
  induction context generalizing p with
  | nil => simp [linesConcat]
  | cons kv rest ih =>
      simp only [List.foldl_cons, List.map_cons]
      rw [ih]
      simp [linesConcat, String.append_assoc]

theorem questions_foldl_eq (qs : List String) (p : String) (n : Nat) :
    (qs.foldl (fun (acc : String × Nat) q =>
        (acc.1 ++ toString acc.2 ++ ". " ++ q ++ "\n", acc.2 + 1)) (p, n)).1
      = p ++ linesConcat (numberedLines n qs) := by
  induction qs generalizing p n with
  | nil => simp [numberedLines, linesConcat]
  | cons q rest ih =>
      simp only [List.foldl_cons]
      rw [ih]
      simp [numberedLines, linesConcat, String.append_assoc]

/-- C9: the prompt builder is the pure function producing exactly the
constant preamble, then (only for a non-empty context) the context block
with each pair in insertion order, then the header and 1-based numbered
question list in the given order. -/
theorem C9_prompt_builder_structure (questions : List String)
    (context : List (String × String)) :
    build_system_prompt questions context =
      interviewerPreamble
        ++ (if context = [] then "" else contextBlockSpec context)
        ++ questionsBlockSpec questions := by
  unfold build_system_prompt contextBlockSpec questionsBlockSpec
  by_cases hc : context = []
  · subst hc
    simp only [List.isEmpty_nil, if_true]
    rw [questions_foldl_eq]
    simp [String.append_assoc]
  · have hce : context.isEmpty = false := by
      cases context with
      | nil => exact absurd rfl hc
      | cons a l => rfl
    simp only [hce, Bool.false_eq_true, if_false, if_neg hc]
    rw [ctx_foldl_eq, questions_foldl_eq]
    simp [String.append_assoc]

/-! ### Registry shape of each orchestrator operation -/

theorem initializeInterview_registry_cases (env : Env) (st : OrchState) (sid : String)
    (qs : List String) (ctx : List (String × String)) :
    (initializeInterview env st sid qs ctx).1.registry = st.registry
    ∨ ∃ e1, e1 = ((selectEngine env).initialize_interview env.oracle qs ctx).1 ∧
        ((initializeInterview env st sid qs ctx).1.registry = dictPut st.registry sid e1
         ∨ (initializeInterview env st sid qs ctx).1.registry
             = dictPut (dictPut st.registry sid e1) sid
                 ((e1.get_ai_response env.oracle (some "Please ask the first question.")).1)) := by
  simp only [initializeInterview]
  split
  · left
    rfl
  · split
    next heq => left; rfl
    next e1 opening heq =>
      right
      refine ⟨e1, ?_, ?_⟩
      · rw [heq]
      · split
        · left
          rfl
        · split
          next e2 m heq2 =>
            right
            simp only [heq2]
          next e2 fq heq2 =>
            split
            · right
              simp only [heq2]
            · right
              simp only [heq2]

theorem getAiResponse_registry_cases (env : Env) (st : OrchState) (sid : String)
    (sr : Option String) :
    (getAiResponse env st sid sr).1.registry = st.registry
    ∨ ∃ e, dictGet st.registry sid = some e ∧
        (getAiResponse env st sid sr).1.registry
          = dictPut st.registry sid ((e.get_ai_response env.oracle (some (sr.getD ""))).1) := by
  simp only [getAiResponse]
  split
  · left
    rfl
  · split
    · left
      rfl
    next e heq =>
      split
      · left
        rfl
      · split
        next e' m heq2 =>
          right
          exact ⟨e, heq, by simp only [heq2]⟩
        next e' r heq2 =>
          split
          · right
            exact ⟨e, heq, by simp only [heq2]⟩
          · right
            exact ⟨e, heq, by simp only [heq2]⟩

theorem endInterview_registry_cases (env : Env) (st : OrchState) (sid : String) :
    (endInterview env st sid).1.registry = st.registry
    ∨ ∃ e, dictGet st.registry sid = some e ∧
        ((endInterview env st sid).1.registry
            = dictPut st.registry sid ((e.end_interview env.oracle).1)
         ∨ (endInterview env st sid).1.registry
            = dictDel (dictPut st.registry sid ((e.end_interview env.oracle).1)) sid) := by
  simp only [endInterview]
  split
  · left
    rfl
  next e heq =>
    right
    refine ⟨e, heq, ?_⟩
    split
    next e' m heq2 =>
      left
      simp only [heq2]
    next e' c heq2 =>
      split
      · left
        simp only [heq2]
      · right
        simp only [heq2]

/-! ### The registry never holds two engines for one session -/

theorem runAction_nodup (env : Env) (st : OrchState) (a : Req)
    (h : (st.registry.map Prod.fst).Nodup) :
    (((runAction env st a).1.registry).map Prod.fst).Nodup := by
  cases a with
  | init sid qs ctx =>
      simp only [runAction]
      rcases initializeInterview_registry_cases env st sid qs ctx with hr | ⟨e1, _, hr | hr⟩
      · rw [hr]; exact h
      · rw [hr]; exact dictPut_keys_nodup _ _ _ h
      · rw [hr]; exact dictPut_keys_nodup _ _ _ (dictPut_keys_nodup _ _ _ h)
  | respond sid sr =>
      simp only [runAction]
      rcases getAiResponse_registry_cases env st sid sr with hr | ⟨e, _, hr⟩
      · rw [hr]; exact h
      · rw [hr]; exact dictPut_keys_nodup _ _ _ h
  | finish sid =>
      simp only [runAction]
      rcases endInterview_registry_cases env st sid with hr | ⟨e, _, hr | hr⟩
      · rw [hr]; exact h
      · rw [hr]; exact dictPut_keys_nodup _ _ _ h
      · rw [hr]; exact dictDel_keys_nodup _ _ (dictPut_keys_nodup _ _ _ h)

theorem runActions_nodup (env : Env) (acts : List Req) (st : OrchState)
    (h : (st.registry.map Prod.fst).Nodup) :
    (((runActions env st acts).registry).map Prod.fst).Nodup := by
  induction acts generalizing st with
  | nil => exact h
  | cons a rest ih => exact ih _ (runAction_nodup env st a h)

theorem initializeInterview_success_registry (env : Env) (st : OrchState) (sid : String)
    (qs : List String) (ctx : List (String × String)) (st' : OrchState) (om fq : String)
    (h : initializeInterview env st sid qs ctx = (st', .initOk om fq)) :
    st'.registry
      = dictPut (dictPut st.registry sid
          (((selectEngine env).initialize_interview env.oracle qs ctx).1)) sid
          (initializedEngine env qs ctx) := by
  simp only [initializeInterview] at h
  split at h
  · simp at h
  · split at h
    next heq => simp at h
    next e1 opening heq =>
      split at h
      · simp at h
      · split at h
        next e2 m heq2 => simp at h
        next e2 fq2 heq2 =>
          split at h
          · simp at h
          · simp only [Prod.mk.injEq] at h
            rw [← h.1]
            simp only [initializedEngine, heq, heq2]

/-- C8: the registry holds at most one engine per session after any request
sequence from the empty state; and every successful initialize (in
particular the second of two back-to-back initializes) leaves exactly one
engine for the session, namely the freshly constructed and bootstrapped
one - the prior engine is overwritten. -/
theorem C8_registry_at_most_one (env : Env) :
    (∀ acts sid, dictCountKey (runActions env OrchState.empty acts).registry sid ≤ 1)
    ∧ (∀ st sid qs ctx st' om fq, (st.registry.map Prod.fst).Nodup →
        initializeInterview env st sid qs ctx = (st', .initOk om fq) →
        dictGet st'.registry sid = some (initializedEngine env qs ctx)
          ∧ dictCountKey st'.registry sid = 1) := by
  constructor
  · intro acts sid
    exact dictCountKey_le_one _ _
      (runActions_nodup env acts OrchState.empty (by simp [OrchState.empty]))
  · intro st sid qs ctx st' om fq hnd h
    have hreg := initializeInterview_success_registry env st sid qs ctx st' om fq h
    have hnd2 := dictPut_keys_nodup _ sid (initializedEngine env qs ctx)
      (dictPut_keys_nodup _ sid (((selectEngine env).initialize_interview env.oracle qs ctx).1) hnd)
    refine ⟨?_, ?_⟩
    · rw [hreg]
      exact dictGet_dictPut_self _ _ _
    · rw [hreg]
      refine Nat.le_antisymm (dictCountKey_le_one _ _ hnd2) ?_
      exact dictCountKey_pos _ _
        (dictGet_mem_keys _ _ _ (dictGet_dictPut_self _ _ _))

/-- The state after one successful mock initialize of session S with
question Q1, for the C8 witness. -/
def c8After : OrchState :=
  { registry := [("S", Engine.mock
      { questions := ["Q1"], current_question_index := 1,
        conversation_history := [msg "assistant" mockOpeningMessage,
          msg "user" "Please ask the first question.", msg "assistant" "Q1"] })],
    transcript := [{ session := "S", speaker := "ai", message := mockOpeningMessage, question := none },
      { session := "S", speaker := "ai", message := "Q1", question := some "Q1" }] }

/-- Witness for C8: two back-to-back initializes for the same session leave
one engine. -/
theorem C8_registry_at_most_one_witness :
    dictCountKey (runActions c7Env OrchState.empty
        [Req.init "S" ["Q1"] [], Req.init "S" ["Q1"] []]).registry "S" ≤ 1 ∧
    (c8After.registry.map Prod.fst).Nodup ∧
    initializeInterview c7Env c8After "S" ["Q1"] []
      = ((initializeInterview c7Env c8After "S" ["Q1"] []).1, .initOk mockOpeningMessage "Q1") ∧
    dictGet (initializeInterview c7Env c8After "S" ["Q1"] []).1.registry "S"
      = some (initializedEngine c7Env ["Q1"] []) ∧
    dictCountKey (initializeInterview c7Env c8After "S" ["Q1"] []).1.registry "S" = 1 :=
  ⟨(C8_registry_at_most_one c7Env).1 [Req.init "S" ["Q1"] [], Req.init "S" ["Q1"] []] "S",
    by decide, by decide,
    ((C8_registry_at_most_one c7Env).2 c8After "S" ["Q1"] []
      (initializeInterview c7Env c8After "S" ["Q1"] []).1 mockOpeningMessage "Q1"
      (by decide) (by decide)).1,
    ((C8_registry_at_most_one c7Env).2 c8After "S" ["Q1"] []
      (initializeInterview c7Env c8After "S" ["Q1"] []).1 mockOpeningMessage "Q1"
      (by decide) (by decide)).2⟩

/-! ### Message-role accounting for the summaries -/

/-- Every entry is student- or interviewer-authored. -/
def rolesUA (h : List Msg) : Prop :=
  ∀ m ∈ h, m.role = "user" ∨ m.role = "assistant"

/-- Every entry is student-, interviewer- or system-authored. -/
def rolesUAS (h : List Msg) : Prop :=
  ∀ m ∈ h, m.role = "user" ∨ m.role = "assistant" ∨ m.role = "system"

/-- The role discipline each engine variant maintains: the scripted and
Gemini variants never store a system entry; the OpenAI variant may. -/
def EngineInv : Engine → Prop
  | .mock s => rolesUA s.conversation_history
  | .openai s => rolesUAS s.conversation_history
  | .gemini s => rolesUA s.conversation_history

theorem rolesUA_append (h1 h2 : List Msg) (a : rolesUA h1) (b : rolesUA h2) :
    rolesUA (h1 ++ h2) := by
  intro m hm
  rcases List.mem_append.mp hm with hm | hm
  · exact a m hm
  · exact b m hm

theorem rolesUAS_append (h1 h2 : List Msg) (a : rolesUAS h1) (b : rolesUAS h2) :
    rolesUAS (h1 ++ h2) := by
  intro m hm
  rcases List.mem_append.mp hm with hm | hm
  · exact a m hm
  · exact b m hm

theorem rolesUA_to_UAS (h : List Msg) (a : rolesUA h) : rolesUAS h := by
  intro m hm
  rcases a m hm with h1 | h1
  · exact Or.inl h1
  · exact Or.inr (Or.inl h1)

theorem rolesUA_nil : rolesUA [] := by
  intro m hm
  simp at hm

theorem rolesUA_user (c : String) : rolesUA [msg "user" c] := by
  intro m hm
  simp only [List.mem_singleton] at hm
  subst hm
  left
  rfl

theorem rolesUA_assistant (c : String) : rolesUA [msg "assistant" c] := by
  intro m hm
  simp only [List.mem_singleton] at hm
  subst hm
  right
  rfl

theorem rolesUA_pair (c1 c2 : String) : rolesUA [msg "user" c1, msg "assistant" c2] := by
  intro m hm
  simp only [List.mem_cons, List.mem_singleton] at hm
  rcases hm with hm | hm | hm
  · subst hm; left; rfl
  · subst hm; right; rfl
  · simp at hm

/-- Every mock get_ai_response appends only student/interviewer entries. -/
theorem mock_respond_history (s : MockState) (sr : Option String) :
    ∃ t, rolesUA t ∧
      ((s.get_ai_response sr).1).conversation_history = s.conversation_history ++ t := by
  by_cases ht : strTruthy sr
  · by_cases hi : s.current_question_index < s.questions.length
    · refine ⟨[msg "user" (sr.getD ""),
        msg "assistant" (s.questions.getD s.current_question_index "")],
        rolesUA_pair _ _, ?_⟩
      simp [MockState.get_ai_response, ht, hi]
    · refine ⟨[msg "user" (sr.getD "")], rolesUA_user _, ?_⟩
      simp [MockState.get_ai_response, ht, hi]
  · by_cases hi : s.current_question_index < s.questions.length
    · refine ⟨[msg "assistant" (s.questions.getD s.current_question_index "")],
        rolesUA_assistant _, ?_⟩
      simp [MockState.get_ai_response, ht, hi]
    · refine ⟨[], rolesUA_nil, ?_⟩
      simp [MockState.get_ai_response, ht, hi]

/-- Every OpenAI get_ai_response appends only student/interviewer entries. -/
theorem openai_respond_history (oracle : Oracle) (s : OpenAIState) (sr : Option String) :
    ∃ t, rolesUA t ∧
      ((s.get_ai_response oracle sr).1).conversation_history
        = s.conversation_history ++ t := by
  by_cases ht : strTruthy sr
  · rcases ho : oracle.openaiChat (s.conversation_history ++ [msg "user" (sr.getD "")]) with m | m
    · refine ⟨[msg "user" (sr.getD "")], rolesUA_user _, ?_⟩
      simp [OpenAIState.get_ai_response, ht, ho]
    · refine ⟨[msg "user" (sr.getD ""), msg "assistant" m], rolesUA_pair _ _, ?_⟩
      simp [OpenAIState.get_ai_response, ht, ho]
  · rcases ho : oracle.openaiChat s.conversation_history with m | m
    · refine ⟨[], rolesUA_nil, ?_⟩
      simp [OpenAIState.get_ai_response, ht, ho]
    · refine ⟨[msg "assistant" m], rolesUA_assistant _, ?_⟩
      simp [OpenAIState.get_ai_response, ht, ho]

/-- Every Gemini send appends only student/interviewer entries. -/
theorem gemini_send_history (oracle : Oracle) (s : GeminiState) (m : String) :
    ∃ t, rolesUA t ∧
      ((s.send_message oracle m).1).conversation_history = s.conversation_history ++ t := by
  rcases ho : oracle.geminiSend
      (if s.conversation_history = [] then s.system_prompt ++ "\n\n" ++ m else m) with r | r
  · refine ⟨[], rolesUA_nil, ?_⟩
    simp [GeminiState.send_message, ho]
  · refine ⟨[msg "user" m, msg "assistant" r], rolesUA_pair _ _, ?_⟩
    simp [GeminiState.send_message, ho]

theorem EngineInv_respond (oracle : Oracle) (e : Engine) (sr : Option String)
    (h : EngineInv e) : EngineInv ((e.get_ai_response oracle sr).1) := by
  cases e with
  | mock s =>
      obtain ⟨t, ht, hh⟩ := mock_respond_history s sr
      simpa only [Engine.get_ai_response, EngineInv, hh]
        using rolesUA_append _ _ h ht
  | openai s =>
      obtain ⟨t, ht, hh⟩ := openai_respond_history oracle s sr
      simpa only [Engine.get_ai_response, EngineInv, hh]
        using rolesUAS_append _ _ h (rolesUA_to_UAS _ ht)
  | gemini s =>
      simp only [Engine.get_ai_response, EngineInv, GeminiState.get_ai_response]
      split
      · exact h
      · split
        · obtain ⟨t, ht, hh⟩ := gemini_send_history oracle s (sr.getD "")
          simpa only [EngineInv, hh] using rolesUA_append _ _ h ht
        · obtain ⟨t, ht, hh⟩ := gemini_send_history oracle s "Please ask the next question."
          simpa only [EngineInv, hh] using rolesUA_append _ _ h ht

theorem EngineInv_init (oracle : Oracle) (e : Engine) (qs : List String)
    (ctx : List (String × String)) (h : EngineInv e) :
    EngineInv ((e.initialize_interview oracle qs ctx).1) := by
  cases e with
  | mock s =>
      simp only [Engine.initialize_interview, EngineInv, MockState.initialize_interview]
      exact rolesUA_append _ _ h (rolesUA_assistant _)
  | openai s =>
      simp only [Engine.initialize_interview, EngineInv, OpenAIState.initialize_interview]
      obtain ⟨t, ht, hh⟩ := openai_respond_history oracle
        { conversation_history := [msg "system" (build_system_prompt qs ctx)] }
        (some "Start the interview with a warm greeting.")
      rw [hh]
      refine rolesUAS_append _ _ ?_ (rolesUA_to_UAS _ ht)
      intro m hm
      simp only [List.mem_singleton] at hm
      subst hm
      right
      right
      rfl
  | gemini s =>
      simp only [Engine.initialize_interview, EngineInv, GeminiState.initialize_interview]
      obtain ⟨t, ht, hh⟩ := gemini_send_history oracle
        { chat_started := true, conversation_history := [],
          system_prompt := build_system_prompt qs ctx }
        "Start the interview with a warm greeting."
      rw [hh]
      exact rolesUA_append _ _ rolesUA_nil ht

theorem EngineInv_end (oracle : Oracle) (e : Engine) (h : EngineInv e) :
    EngineInv ((e.end_interview oracle).1) := by
  cases e with
  | mock s =>
      simp only [Engine.end_interview, EngineInv, MockState.end_interview]
      exact rolesUA_append _ _ h (rolesUA_assistant _)
  | openai s =>
      simp only [Engine.end_interview, EngineInv, OpenAIState.end_interview]
      obtain ⟨t, ht, hh⟩ := openai_respond_history oracle
        { conversation_history := s.conversation_history ++
            [msg "user" "The interview is now complete. Thank the candidate and provide a professional closing statement."] }
        none
      rw [hh]
      refine rolesUAS_append _ _ (rolesUAS_append _ _ h ?_) (rolesUA_to_UAS _ ht)
      exact rolesUA_to_UAS _ (rolesUA_user _)
  | gemini s =>
      simp only [Engine.end_interview, EngineInv, GeminiState.end_interview]
      split
      · exact h
      · obtain ⟨t, ht, hh⟩ := gemini_send_history oracle s
          "The interview is now complete. Thank the candidate and provide a professional closing statement."
        simpa only [EngineInv, hh] using rolesUA_append _ _ h ht

theorem EngineInv_select (env : Env) : EngineInv (selectEngine env) := by
  simp only [selectEngine]
  split
  · intro m hm
    simp [GeminiState.new] at hm
  · split
    · intro m hm
      simp [OpenAIState.new] at hm
    · intro m hm
      simp [MockState.new] at hm

/-! ### Counting the summary fields -/

theorem length_eq_role_counts (h : List Msg) (hr : rolesUAS h) :
    h.length = (h.filter (fun m => m.role == "user")).length
      + (h.filter (fun m => m.role == "assistant")).length
      + (h.filter (fun m => m.role == "system")).length := by
  induction h with
  | nil => simp
  | cons m rest ih =>
      have hm := hr m (List.mem_cons_self m rest)
      have hrest : rolesUAS rest := fun x hx => hr x (List.mem_cons_of_mem m hx)
      rcases hm with h1 | h1 | h1 <;>
        simp [List.filter_cons, h1, ih hrest] <;> omega

theorem sysCount_eq_zero_of_rolesUA (h : List Msg) (hr : rolesUA h) :
    (h.filter (fun m => m.role == "system")).length = 0 := by
  induction h with
  | nil => simp
  | cons m rest ih =>
      have hm := hr m (List.mem_cons_self m rest)
      have hrest : rolesUA rest := fun x hx => hr x (List.mem_cons_of_mem m hx)
      rcases hm with h1 | h1 <;> simp [List.filter_cons, h1, ih hrest]

theorem engine_summary_eq (e : Engine) :
    e.get_conversation_summary = summarize e.history := by
  cases e <;> rfl

/-- For an engine obeying its role discipline, the summary counts add up to
the total once the system entries are accounted for; and the scripted and
Gemini variants have no system entries. -/
theorem engine_summary_split (e : Engine) (h : EngineInv e) :
    e.get_conversation_summary.total_messages
      = e.get_conversation_summary.student_messages
        + e.get_conversation_summary.ai_messages + e.sysCount
    ∧ ((∃ s, e = Engine.mock s) ∨ (∃ s, e = Engine.gemini s) → e.sysCount = 0) := by
  constructor
  · rw [engine_summary_eq]
    cases e with
    | mock s => exact length_eq_role_counts _ (rolesUA_to_UAS _ h)
    | openai s => exact length_eq_role_counts _ h
    | gemini s => exact length_eq_role_counts _ (rolesUA_to_UAS _ h)
  · rintro (⟨s, rfl⟩ | ⟨s, rfl⟩)
    · exact sysCount_eq_zero_of_rolesUA _ h
    · exact sysCount_eq_zero_of_rolesUA _ h

/-! ### Every registry engine obeys the role discipline -/

/-- Every engine in the registry satisfies its role discipline. -/
def RegistryInv (st : OrchState) : Prop := ∀ kv ∈ st.registry, EngineInv kv.2

theorem regInv_dictPut (d : List (String × Engine)) (k : String) (v : Engine)
    (h : ∀ kv ∈ d, EngineInv kv.2) (hv : EngineInv v) :
    ∀ kv ∈ dictPut d k v, EngineInv kv.2 := by
  intro kv hkv
  rcases mem_dictPut d k v kv hkv with h' | h'
  · exact h kv h'
  · rw [h']
    exact hv

theorem regInv_dictDel (d : List (String × Engine)) (k : String)
    (h : ∀ kv ∈ d, EngineInv kv.2) : ∀ kv ∈ dictDel d k, EngineInv kv.2 :=
  fun kv hkv => h kv (mem_dictDel d k kv hkv)

theorem runAction_regInv (env : Env) (st : OrchState) (a : Req)
    (h : RegistryInv st) : RegistryInv (runAction env st a).1 := by
  cases a with
  | init sid qs ctx =>
      simp only [runAction]
      intro kv hkv
      rcases initializeInterview_registry_cases env st sid qs ctx with hr | ⟨e1, he1, hr | hr⟩
      · rw [hr] at hkv
        exact h kv hkv
      · rw [hr] at hkv
        refine regInv_dictPut _ _ _ h ?_ kv hkv
        rw [he1]
        exact EngineInv_init env.oracle _ qs ctx (EngineInv_select env)
      · rw [hr] at hkv
        have hinv1 : EngineInv e1 := by
          rw [he1]
          exact EngineInv_init env.oracle _ qs ctx (EngineInv_select env)
        refine regInv_dictPut _ _ _ (regInv_dictPut _ _ _ h hinv1) ?_ kv hkv
        exact EngineInv_respond env.oracle e1 _ hinv1
  | respond sid sr =>
      simp only [runAction]
      intro kv hkv
      rcases getAiResponse_registry_cases env st sid sr with hr | ⟨e, he, hr⟩
      · rw [hr] at hkv
        exact h kv hkv
      · rw [hr] at hkv
        refine regInv_dictPut _ _ _ h ?_ kv hkv
        exact EngineInv_respond env.oracle e _ (h (sid, e) (dictGet_mem _ _ _ he))
  | finish sid =>
      simp only [runAction]
      intro kv hkv
      rcases endInterview_registry_cases env st sid with hr | ⟨e, he, hr | hr⟩
      · rw [hr] at hkv
        exact h kv hkv
      · rw [hr] at hkv
        refine regInv_dictPut _ _ _ h ?_ kv hkv
        exact EngineInv_end env.oracle e (h (sid, e) (dictGet_mem _ _ _ he))
      · rw [hr] at hkv
        refine regInv_dictDel _ _ (regInv_dictPut _ _ _ h ?_) kv hkv
        exact EngineInv_end env.oracle e (h (sid, e) (dictGet_mem _ _ _ he))

theorem runActions_regInv (env : Env) (acts : List Req) (st : OrchState)
    (h : RegistryInv st) : RegistryInv (runActions env st acts) := by
  induction acts generalizing st with
  | nil => exact h
  | cons a rest ih => exact ih _ (runAction_regInv env st a h)

/-! ### The summary round-trip claim -/

/-- The summary of the engine registered for a session, when one exists. -/
def registrySummary (st : OrchState) (sid : String) : Option Summary :=
  (dictGet st.registry sid).map Engine.get_conversation_summary

/-- An environment in which the OpenAI engine is selected and every provider
call answers ok. -/
def c2Env : Env :=
  { oracle := { openaiChat := fun _ => .ok "ok", geminiSend := fun _ => .ok "ok" },
    db := fun _ => .ok (), geminiKey := false, openaiKey := true,
    geminiCtorOk := true, openaiCtorOk := true }

/-- C2 as stated is false: after a single initialize under the OpenAI
variant, the registered engine's summary has total_messages 5 (one system
entry plus two user and two assistant entries) while the student and
interviewer counts sum to 4. -/
theorem C2_counterexample :
    (registrySummary (runActions c2Env OrchState.empty [Req.init "S" ["Q1"] []]) "S").map
      (fun s => s.total_messages == s.student_messages + s.ai_messages) = some false := by
  decide

/-- C2 amended: for every engine reachable in the registry after any request
sequence, the student and interviewer counts sum to the total minus the
number of system entries; the scripted and Gemini variants carry no system
entries, so for them the sum equals the total exactly. -/
theorem C2_amended_summary_roundtrip (env : Env) (acts : List Req) (sid : String) (e : Engine)
    (h : dictGet (runActions env OrchState.empty acts).registry sid = some e) :
    e.get_conversation_summary.total_messages
      = e.get_conversation_summary.student_messages
        + e.get_conversation_summary.ai_messages + e.sysCount
    ∧ ((∃ s, e = Engine.mock s) ∨ (∃ s, e = Engine.gemini s) →
        e.get_conversation_summary.total_messages
          = e.get_conversation_summary.student_messages
            + e.get_conversation_summary.ai_messages) := by
  have hinv : EngineInv e := by
    have hreg := runActions_regInv env acts OrchState.empty (by intro kv hkv; simp [OrchState.empty] at hkv)
    exact hreg (sid, e) (dictGet_mem _ _ _ h)
  obtain ⟨h1, h2⟩ := engine_summary_split e hinv
  refine ⟨h1, fun hv => ?_⟩
  rw [h1, h2 hv, Nat.add_zero]

/-- Witness for the amended C2 on a scripted engine after one initialize. -/
theorem C2_amended_summary_roundtrip_witness :
    dictGet (runActions c7Env OrchState.empty [Req.init "S" ["Q1"] []]).registry "S"
      = some (Engine.mock
          { questions := ["Q1"], current_question_index := 1,
            conversation_history := [msg "assistant" mockOpeningMessage,
              msg "user" "Please ask the first question.", msg "assistant" "Q1"] }) ∧
    (Engine.mock
        { questions := ["Q1"], current_question_index := 1,
          conversation_history := [msg "assistant" mockOpeningMessage,
            msg "user" "Please ask the first question.",
            msg "assistant" "Q1"] }).get_conversation_summary.total_messages
      = (Engine.mock
          { questions := ["Q1"], current_question_index := 1,
            conversation_history := [msg "assistant" mockOpeningMessage,
              msg "user" "Please ask the first question.",
              msg "assistant" "Q1"] }).get_conversation_summary.student_messages
        + (Engine.mock
            { questions := ["Q1"], current_question_index := 1,
              conversation_history := [msg "assistant" mockOpeningMessage,
                msg "user" "Please ask the first question.",
                msg "assistant" "Q1"] }).get_conversation_summary.ai_messages :=
  ⟨by decide,
    (C2_amended_summary_roundtrip c7Env [Req.init "S" ["Q1"] []] "S"
      (Engine.mock
        { questions := ["Q1"], current_question_index := 1,
          conversation_history := [msg "assistant" mockOpeningMessage,
            msg "user" "Please ask the first question.", msg "assistant" "Q1"] })
      (by decide)).2 (Or.inl ⟨_, rfl⟩)⟩
